import Mathlib

/-!
Verification development for the financial-data pipeline in `utilities.py`
of the ExcelAIAnalyzer repository: column-structure detection
(`detect_excel_structure`), normalization (`analyze_excel_data`), keyword
classification (`classify_transactions`), aggregation/insights
(`generate_ai_insights`) and month-ahead prediction
(`generate_financial_predictions`).

Modelling conventions:
* Money values are rationals (`Rat`), the exact model of the numeric
  arithmetic the code performs.
* A calendar date is an absolute month index (`12 * year + month - 1`)
  together with a 1-based day of month; a `YYYY-MM` label corresponds
  one-to-one to the month index.
* Raw cells are a tagged variant (text, number, datetime, NaN, Python
  `None`), following the code's duck-typed cell handling.
* `pandas.to_datetime(..., errors='coerce')` on a cell is modelled for
  already-datetime values and ISO `YYYY-MM-DD` text; every other cell
  coerces to NaT.  `pandas.to_numeric(..., errors='coerce')` is modelled
  for numbers and plain decimal text.
* String scanning (lower-casing, substring containment) is implemented
  over character lists so that all operations compute by kernel reduction.
-/

namespace ExcelAI

/-- ASCII lower-casing of one character (model of Python `str.lower` on the
characters the keyword tables contain; Arabic letters have no case). -/
def lowerChar (c : Char) : Char :=
  if 'A'.toNat ≤ c.toNat ∧ c.toNat ≤ 'Z'.toNat then Char.ofNat (c.toNat + 32) else c

/-- Lower-case a string (model of Python `str.lower`). -/
def toLowerStr (s : String) : String :=
  ⟨s.data.map lowerChar⟩

/-- Test whether `needle` occurs at the head of `hay`. -/
def isPrefixCh : List Char → List Char → Bool
  | [], _ => true
  | _ :: _, [] => false
  | a :: as, b :: bs => a == b && isPrefixCh as bs

/-- Test whether `needle` occurs somewhere in `hay` (model of Python
`needle in hay`). -/
def containsCh (needle : List Char) : List Char → Bool
  | [] => needle.isEmpty
  | c :: t => isPrefixCh needle (c :: t) || containsCh needle t

/-- Python substring test `sub in hay` on strings. -/
def strContains (hay sub : String) : Bool :=
  containsCh sub.data hay.data

/-- Decimal digit test. -/
def isDigitCh (c : Char) : Bool :=
  '0'.toNat ≤ c.toNat && c.toNat ≤ '9'.toNat

/-- Value of a digit string (callers check digits first). -/
def natOfDigits (l : List Char) : Nat :=
  l.foldl (fun a c => a * 10 + (c.toNat - '0'.toNat)) 0

/-- Parse a non-empty all-digit character list. -/
def digitsToNat? (l : List Char) : Option Nat :=
  if !l.isEmpty && l.all isDigitCh then some (natOfDigits l) else none

/-- Split a character list on a separator character. -/
def splitOnCh (sep : Char) : List Char → List (List Char)
  | [] => [[]]
  | c :: t =>
    match splitOnCh sep t with
    | [] => if c == sep then [[], []] else [[c]]
    | g :: gs => if c == sep then [] :: g :: gs else (c :: g) :: gs

/-- A calendar date: absolute month index (`12 * year + month - 1`) and
1-based day of month. -/
structure Date where
  month : Nat
  day : Nat
deriving DecidableEq, Repr

/-- Gregorian leap-year rule. -/
def isLeapYear (y : Nat) : Bool :=
  y % 4 = 0 && (y % 100 ≠ 0 || y % 400 = 0)

/-- Number of days in the month with absolute index `m`. -/
def daysInMonth (m : Nat) : Nat :=
  let mo := m % 12
  if mo = 1 then (if isLeapYear (m / 12) then 29 else 28)
  else if mo = 3 ∨ mo = 5 ∨ mo = 8 ∨ mo = 10 then 30
  else 31

/-- The calendar day before `d`. -/
def prevDay (d : Date) : Date :=
  if d.day ≤ 1 then ⟨d.month - 1, daysInMonth (d.month - 1)⟩ else ⟨d.month, d.day - 1⟩

/-- Step `k` days back from `d`. -/
def backDays : Nat → Date → Date
  | 0, d => d
  | k + 1, d => backDays k (prevDay d)

/-- Parse ISO `YYYY-MM-DD` text into a date. -/
def parseDateChars (l : List Char) : Option Date :=
  match splitOnCh '-' l with
  | [ys, ms, ds] =>
    match digitsToNat? ys, digitsToNat? ms, digitsToNat? ds with
    | some y, some mo, some dy =>
      if 1 ≤ mo ∧ mo ≤ 12 ∧ 1 ≤ dy ∧ dy ≤ daysInMonth (y * 12 + (mo - 1)) then
        some ⟨y * 12 + (mo - 1), dy⟩
      else none
    | _, _, _ => none
  | _ => none

/-- Parse plain decimal text (optional sign, digits, optional fraction)
into a rational, the model of numeric string coercion. -/
def parseNumChars (l : List Char) : Option Rat :=
  let (sgn, body) : Rat × List Char :=
    match l with
    | '-' :: t => (-1, t)
    | '+' :: t => (1, t)
    | t => (1, t)
  match splitOnCh '.' body with
  | [ip] =>
    match digitsToNat? ip with
    | some n => some (sgn * n)
    | none => none
  | [ip, fp] =>
    match digitsToNat? ip, digitsToNat? fp with
    | some n, some f => some (sgn * (n + (f : Rat) / ((10 : Rat) ^ fp.length)))
    | _, _ => none
  | _ => none

/-- One raw spreadsheet cell: the tagged-variant model of the untyped
values a pandas object column can hold. -/
inductive CellValue where
  | text (s : String)
  | num (q : Rat)
  | date (d : Date)
  | na
  | pyNone
deriving DecidableEq, Repr

/-- Rendering of a date as text (model of `str` on a timestamp; no claim
inspects its exact shape). -/
def dateToStr (d : Date) : String :=
  toString (d.month / 12) ++ "-" ++ toString (d.month % 12 + 1) ++ "-" ++ toString d.day

/-- Python `str()` of a cell: `NaN` prints as `"nan"`, `None` as `"None"`. -/
def strOfCell : CellValue → String
  | .text s => s
  | .num q => toString q
  | .date d => dateToStr d
  | .na => "nan"
  | .pyNone => "None"

/-- Model of `pandas.to_datetime(cell, errors='coerce')`: datetimes pass through,
ISO text parses, everything else coerces to NaT (`none`). -/
def pdToDatetime : CellValue → Option Date
  | .date d => some d
  | .text s => parseDateChars s.data
  | _ => none

/-- Model of `pandas.to_numeric(cell, errors='coerce')`: numbers pass through,
decimal text parses, everything else coerces to NaN (`none`). -/
def pdToNumeric : CellValue → Option Rat
  | .num q => some q
  | .text s => parseNumChars s.data
  | _ => none

/-- Model of `not pandas.isna(cell)`. -/
def notNA : CellValue → Bool
  | .na => false
  | .pyNone => false
  | _ => true

/-- A raw input row: column name to cell value, as handed to the core. -/
abbrev Row := List (String × CellValue)

/-- Reading one named column of a raw row. -/
def getCell (r : Row) (c : String) : CellValue :=
  match r.find? (fun p => p.1 == c) with
  | some p => p.2
  | none => .na

/-- A column mapping: canonical field name to actual column name, in
insertion order, as built by `detect_excel_structure`. -/
abbrev Mapping := List (String × String)

/-- Dictionary lookup on a mapping. -/
def mlookup (m : Mapping) (k : String) : Option String :=
  (m.find? (fun p => p.1 == k)).map (·.2)

/-- Python `k in mapping`. -/
def hasField (m : Mapping) (k : String) : Bool :=
  (m.find? (fun p => p.1 == k)).isSome

/-- Candidate header keywords for the Date field (`date_columns`). -/
def date_columns : List String :=
  ["Date", "Transaction Date", "تاريخ", "تاريخ المعاملة", "التاريخ", "date", "datetime", "time"]

/-- Candidate header keywords for the Description field (`description_columns`). -/
def description_columns : List String :=
  ["Description", "Transaction Details", "وصف", "تفاصيل المعاملة", "الوصف", "البيان", "التفاصيل", "desc", "details"]

/-- Candidate header keywords for the Category field (`category_columns`). -/
def category_columns : List String :=
  ["Category", "Type", "فئة", "تصنيف", "نوع", "cat", "group", "مجموعة", "النوع"]

/-- Candidate header keywords for the Income field (`income_columns`). -/
def income_columns : List String :=
  ["Income", "Credit", "دخل", "إيرادات", "ايرادات", "مدين", "credit", "in", "revenue", "دائن", "دخل"]

/-- Candidate header keywords for the Expenses field (`expense_columns`). -/
def expense_columns : List String :=
  ["Expense", "Expenses", "Debit", "مصروفات", "مصاريف", "دائن", "debit", "out", "مصرف", "مصروف", "خصم"]

/-- Model of `any(kw.lower() in col_str for kw in kws)` where `col_str` is the
lower-cased header. -/
def matchesAny (kws : List String) (colStr : String) : Bool :=
  kws.any (fun kw => strContains colStr (toLowerStr kw))

/-- The `if/elif` chain of `detect_excel_structure` for one header: the
first candidate list whose keyword hits an as-yet-unassigned canonical
field wins the header; a header matching nothing leaves the mapping
unchanged. -/
def detectStep (col : String) (m : Mapping) : Mapping :=
  let colStr := toLowerStr col
  if matchesAny date_columns colStr && !hasField m "Date" then
    m ++ [("Date", col)]
  else if matchesAny description_columns colStr && !hasField m "Description" then
    m ++ [("Description", col)]
  else if matchesAny category_columns colStr && !hasField m "Category" then
    m ++ [("Category", col)]
  else if matchesAny income_columns colStr && !hasField m "Income" then
    m ++ [("Income", col)]
  else if matchesAny expense_columns colStr && !hasField m "Expenses" then
    m ++ [("Expenses", col)]
  else m

/-- The header scan of `detect_excel_structure`, in header order. -/
def detectFrom : List String → Mapping → Mapping
  | [], m => m
  | col :: rest, m => detectFrom rest (detectStep col m)

/-- Model of `detect_excel_structure(df)`: infer the canonical-field column mapping
from the input headers. -/
def detect_excel_structure (headers : List String) : Mapping :=
  detectFrom headers []

/-- The five canonical field names. -/
def canonicalFields : List String :=
  ["Date", "Description", "Category", "Income", "Expenses"]

/-- The static category keyword table of `classify_transactions`
(`category_keywords`), in its source iteration order. -/
def category_keywords : List (String × List String) :=
  [("رواتب", ["راتب", "معاش", "أجر", "salary", "wage", "payroll"]),
   ("تبرعات", ["تبرع", "هبة", "دعم", "donation", "grant", "support"]),
   ("استثمارات", ["أرباح", "استثمار", "عائد", "dividend", "investment", "return"]),
   ("مبيعات", ["مبيعات", "بيع", "إيراد", "sales", "revenue", "income"]),
   ("مصاريف تشغيلية", ["تشغيل", "صيانة", "خدمة", "operation", "maintenance", "service"]),
   ("مصاريف إدارية", ["إدارة", "مكتب", "إيجار", "administration", "office", "rent"]),
   ("مصاريف تسويقية", ["تسويق", "إعلان", "دعاية", "marketing", "advertising", "promotion"]),
   ("مصاريف الموظفين", ["موظف", "تأمين", "تدريب", "employee", "insurance", "training"]),
   ("مصاريف مالية", ["بنك", "فائدة", "رسوم", "bank", "interest", "fees"]),
   ("مشتريات", ["شراء", "مشتريات", "بضاعة", "purchase", "goods", "inventory"]),
   ("سفر", ["سفر", "تذكرة", "فندق", "travel", "ticket", "hotel"])]

/-- The fallback label for income rows (`"إيرادات أخرى"`, Other Income). -/
def otherIncomeLabel : String := "إيرادات أخرى"

/-- The fallback label for expense rows (`"مصاريف أخرى"`, Other Expenses). -/
def otherExpensesLabel : String := "مصاريف أخرى"

/-- The uncategorized label (`"غير مصنف"`). -/
def uncategorizedLabel : String := "غير مصنف"

/-- The side filter of `classify_transactions`:
`category.startswith('مصاريف') or category == 'مشتريات' or category == 'سفر'`. -/
def isExpenseGroup (c : String) : Bool :=
  isPrefixCh "مصاريف".data c.data || c == "مشتريات" || c == "سفر"

/-- Model of `pandas.notna(row['Description']) and row['Description'] != ''`. -/
def descHasText : CellValue → Bool
  | .na => false
  | .pyNone => false
  | .text s => !(s == "")
  | _ => true

/-- The keyword scan of `classify_transactions`: first category whose
keyword list hits the lower-cased description and that passes the
income/expense side filter; a keyword hit failing the side filter falls
through to the next category. -/
def scanCategories : List (String × List String) → String → Bool → Bool → Option String
  | [], _, _, _ => none
  | (cat, kws) :: rest, descr, isInc, isExp =>
    if kws.any (fun kw => strContains descr kw) then
      if isInc && !isExpenseGroup cat then some cat
      else if isExp && isExpenseGroup cat then some cat
      else scanCategories rest descr isInc isExp
    else scanCategories rest descr isInc isExp

/-- Model of `classify_transactions(row)` on the fields the function reads: the
description cell and the (already coerced) income and expense amounts. -/
def classify_transactions (desc : CellValue) (income expenses : Rat) : String :=
  let is_income := decide (income > 0)
  let is_expense := decide (expenses > 0)
  let fromDesc : Option String :=
    if descHasText desc then
      scanCategories category_keywords (toLowerStr (strOfCell desc)) is_income is_expense
    else none
  match fromDesc with
  | some c => c
  | none =>
    if is_income then otherIncomeLabel
    else if is_expense then otherExpensesLabel
    else uncategorizedLabel

/-- One row of the processed frame `analyze_excel_data` builds: the `Date`
column holds a datetime or NaT, `Description` keeps the raw cell,
`Income`/`Expenses`/`Net` are numeric, `Category` is text. -/
structure ProcRow where
  Date : CellValue
  Description : CellValue
  Income : Rat
  Expenses : Rat
  Category : String
  Net : Rat
deriving DecidableEq, Repr

/-- The category cleanup of `analyze_excel_data`: after `astype(str)`, the
literal `''` and `'nan'` are replaced by the uncategorized label. -/
def cleanCategory (s : String) : String :=
  if s = "" then uncategorizedLabel
  else if s = "nan" then uncategorizedLabel
  else s

/-- The synthesized date for row `i` of `n` when no Date column was
mapped: `pd.date_range(end=now, periods=n, freq='D')` gives day
`now - (n - 1 - i)`. -/
def synthDate (now : Date) (n i : Nat) : Date :=
  backDays (n - 1 - i) now

/-- Field-by-field processing of row `i` (of `n` rows) by
`analyze_excel_data`: date parse or synthesis, description pass-through or
synthesis, numeric coercion with NaN as 0, absolute value on expenses,
category pass-through-and-cleanup or classification, and `Net`. -/
def processRow (mapping : Mapping) (now : Date) (n i : Nat) (r : Row) : ProcRow :=
  let dateCell : CellValue :=
    match mlookup mapping "Date" with
    | some h =>
      match pdToDatetime (getCell r h) with
      | some d => .date d
      | none => .na
    | none => .date (synthDate now n i)
  let desc : CellValue :=
    match mlookup mapping "Description" with
    | some h => getCell r h
    | none => .text ("المعاملة #" ++ toString (i + 1))
  let income : Rat :=
    match mlookup mapping "Income" with
    | some h => (pdToNumeric (getCell r h)).getD 0
    | none => 0
  let expenses : Rat :=
    match mlookup mapping "Expenses" with
    | some h => |(pdToNumeric (getCell r h)).getD 0|
    | none => 0
  let category : String :=
    match mlookup mapping "Category" with
    | some h => cleanCategory (strOfCell (getCell r h))
    | none => cleanCategory (classify_transactions desc income expenses)
  ⟨dateCell, desc, income, expenses, category, income - expenses⟩

/-- Sequential pass of `analyze_excel_data` over the raw rows, carrying
the row index the description synthesis uses. -/
def analyzeRows (mapping : Mapping) (now : Date) (n : Nat) : Nat → List Row → List ProcRow
  | _, [] => []
  | i, r :: rs => processRow mapping now n i r :: analyzeRows mapping now n (i + 1) rs

/-- The `Date` cell survived datetime coercion. -/
def isDateCell : CellValue → Bool
  | .date _ => true
  | _ => false

/-- Model of `analyze_excel_data(df, column_mapping)`: normalize the raw frame and
drop the rows whose `Date` is NaT (`dropna(subset=['Date'])`).  `now` is
the wall clock the source reads via `datetime.now()` when it synthesizes
dates. -/
def analyze_excel_data (df : List Row) (mapping : Mapping) (now : Date) : List ProcRow :=
  (analyzeRows mapping now df.length 0 df).filter (fun p => isDateCell p.Date)

/-- Code-point comparison of strings, the order pandas sorts grouping
keys by. -/
def strLeb (a b : String) : Bool :=
  lexLeb a.data b.data
where
  lexLeb : List Char → List Char → Bool
    | [], _ => true
    | _ :: _, [] => false
    | a :: as, b :: bs =>
      if a.toNat < b.toNat then true
      else if b.toNat < a.toNat then false
      else lexLeb as bs

/-- Insertion into a sorted string list. -/
def insertStr (x : String) : List String → List String
  | [] => [x]
  | y :: ys => if strLeb x y then x :: y :: ys else y :: insertStr x ys

/-- Insertion sort of strings, the model of pandas' sorted group keys. -/
def sortStrs : List String → List String
  | [] => []
  | x :: xs => insertStr x (sortStrs xs)

/-- The distinct category labels of a processed frame in sorted order:
the index of `data.groupby('Category')`. -/
def groupKeys (data : List ProcRow) : List String :=
  sortStrs (data.map (·.Category)).dedup

/-- Per-category column sum: one entry of `data.groupby('Category')[col].sum()`. -/
def sumBy (data : List ProcRow) (c : String) (f : ProcRow → Rat) : Rat :=
  ((data.filter (fun r => r.Category == c)).map f).sum

/-- Model of `data.groupby('Category')['Expenses'].sum()` as a keyed series. -/
def expenses_by_category (data : List ProcRow) : List (String × Rat) :=
  (groupKeys data).map (fun c => (c, sumBy data c (·.Expenses)))

/-- Model of `data.groupby('Category')['Income'].sum()` as a keyed series. -/
def income_by_category (data : List ProcRow) : List (String × Rat) :=
  (groupKeys data).map (fun c => (c, sumBy data c (·.Income)))

/-- Model of `series.idxmax()` paired with `series.max()`: the first key attaining
the maximal value, scanning from an initial candidate. -/
def idxmaxFrom : (String × Rat) → List (String × Rat) → (String × Rat)
  | best, [] => best
  | best, p :: rest => if p.2 > best.2 then idxmaxFrom p rest else idxmaxFrom best rest

/-- Model of `series.idxmax()` paired with `series.max()` guarded by the source's
`if not series.empty else "غير متوفر"` default. -/
def topOf (series : List (String × Rat)) : String × Rat :=
  match series with
  | [] => ("غير متوفر", 0)
  | p :: rest => idxmaxFrom p rest

/-- Python `f"{q:.2f}"` on a rational: two-decimal rendering. -/
def fmt2 (q : Rat) : String :=
  let n : Int := round (q * 100)
  let a := n.natAbs
  (if n < 0 then "-" else "") ++ toString (a / 100) ++ "." ++
    (if a % 100 < 10 then "0" else "") ++ toString (a % 100)

/-- One value of the `category_analysis` dictionary of
`generate_ai_insights`. -/
structure CategoryStat where
  expenses : Rat
  income : Rat
  net : Rat
deriving DecidableEq, Repr

/-- The result dictionary of `generate_ai_insights`. -/
structure InsightsResult where
  summary : String
  insights : List String
  category_analysis : List (String × CategoryStat)
  trends : List (String × Rat)
  recommendations : List String
deriving DecidableEq, Repr

/-- The canned insufficient-data result `generate_ai_insights` returns on
a `None` or empty frame. -/
def emptyInsights : InsightsResult :=
  { summary := "لا توجد بيانات كافية للتحليل."
    insights := ["لا توجد بيانات مالية متاحة للتحليل."]
    category_analysis := []
    trends := []
    recommendations := ["يرجى تحميل ملف بيانات مالية صالح للتحليل."] }

/-- Model of `generate_ai_insights(data)`: totals, per-category aggregates, the
sign-of-net narrative, the two top-category insights and the two
sign-selected recommendations.  The `category_analysis` keys model the
union of the two groupby indices (identical sets) in sorted order. -/
def generate_ai_insights (data? : Option (List ProcRow)) : InsightsResult :=
  match data? with
  | none => emptyInsights
  | some data =>
    if data.isEmpty then emptyInsights
    else
      let total_income := (data.map (·.Income)).sum
      let total_expenses := (data.map (·.Expenses)).sum
      let net_cash_flow := total_income - total_expenses
      let ebc := expenses_by_category data
      let ibc := income_by_category data
      let category_analysis : List (String × CategoryStat) :=
        (groupKeys data).map (fun c =>
          (c, { expenses := sumBy data c (·.Expenses)
                income := sumBy data c (·.Income)
                net := sumBy data c (·.Income) - sumBy data c (·.Expenses) }))
      let baseInsights : List String :=
        if net_cash_flow ≥ 0 then
          ["التدفق النقدي إيجابي، مما يشير إلى حالة مالية جيدة."]
        else
          ["التدفق النقدي سلبي، قد تحتاج إلى مراجعة النفقات أو زيادة الإيرادات."]
      let summary : String :=
        if net_cash_flow ≥ 0 then
          "إجمالي الإيرادات (" ++ fmt2 total_income ++ ") أكبر من إجمالي المصروفات (" ++
            fmt2 total_expenses ++ ")، مما يعني أن هناك تدفق نقدي إيجابي بقيمة " ++
            fmt2 net_cash_flow ++ "."
        else
          "إجمالي المصروفات (" ++ fmt2 total_expenses ++ ") أكبر من إجمالي الإيرادات (" ++
            fmt2 total_income ++ ")، مما يعني أن هناك تدفق نقدي سلبي بقيمة " ++
            fmt2 |net_cash_flow| ++ "."
      let top_expense : String × Rat := topOf ebc
      let top_income : String × Rat := topOf ibc
      let insights : List String :=
        baseInsights ++
          ["أكبر فئة مصروفات هي '" ++ top_expense.1 ++ "' بقيمة " ++ fmt2 top_expense.2 ++ ".",
           "أكبر فئة إيرادات هي '" ++ top_income.1 ++ "' بقيمة " ++ fmt2 top_income.2 ++ "."]
      let recommendations : List String :=
        if net_cash_flow < 0 then
          ["خفض النفقات في الفئات ذات المصروفات العالية.",
           "البحث عن مصادر إيرادات جديدة لتحسين التدفق النقدي."]
        else
          ["الاستمرار في الحفاظ على التوازن بين الإيرادات والمصروفات.",
           "استثمار الفائض النقدي في مجالات تساعد على نمو الإيرادات."]
      { summary := summary
        insights := insights
        category_analysis := category_analysis
        trends := []
        recommendations := recommendations }

/-- One entry of `monthly_predictions`: the `month` field is the absolute
month index the `'%Y-%m'` label renders. -/
structure Prediction where
  month : Nat
  predicted_income : Rat
  predicted_expenses : Rat
  predicted_net : Rat
  growth_rate : Rat
deriving DecidableEq, Repr

/-- The result dictionary of `generate_financial_predictions`. -/
structure PredictionResult where
  summary : String
  monthly_predictions : List Prediction
deriving DecidableEq, Repr

/-- Datetime coercion of one `Date`-column cell, as performed in place by
`data['Date'] = pd.to_datetime(data['Date'], errors='coerce')`. -/
def reDate (c : CellValue) : CellValue :=
  match pdToDatetime c with
  | some d => .date d
  | none => .na

/-- The predictor's in-place rewrite of its input frame's `Date` column. -/
def coerceDates (data : List ProcRow) : List ProcRow :=
  data.map (fun r => { r with Date := reDate r.Date })

/-- The month indices of the rows whose coerced `Date` is a datetime
(the rows `pd.Grouper(key='Date', freq='M')` buckets; NaT rows are
dropped). -/
def usedMonths (data : List ProcRow) : List Nat :=
  data.filterMap (fun r =>
    match r.Date with
    | .date d => some d.month
    | _ => none)

/-- Total of one numeric column over the rows falling in month `m`: one
bucket of `data.groupby(pd.Grouper(key='Date', freq='M')).agg(...)`. -/
def monthSum (data : List ProcRow) (m : Nat) (f : ProcRow → Rat) : Rat :=
  ((data.filter (fun r =>
    match r.Date with
    | .date d => d.month == m
    | _ => false)).map f).sum

/-- Arithmetic mean of the monthly bucket totals of one numeric column
over the months `mn .. mx` (the mean the source takes of
`data_by_month[col]`). -/
def bucketAvg (data : List ProcRow) (mn mx : Nat) (f : ProcRow → Rat) : Rat :=
  ((List.range (mx - mn + 1)).map (fun j => monthSum data (mn + j) f)).sum /
    ((mx - mn + 1 : Nat) : Rat)

/-- The normal summary line of `generate_financial_predictions`. -/
def predSummary (months_ahead : Nat) : String :=
  "تم إنشاء تنبؤات مالية للـ " ++ toString months_ahead ++
    " أشهر القادمة بناءً على متوسط الإيرادات والمصروفات السابقة مع افتراض نمو بسيط."

/-- The `try` body of `generate_financial_predictions` on the
date-coerced frame: bucket by calendar month (the grouper generates every
month from the earliest to the latest, empty ones summing to zero), take
the arithmetic means of the bucket totals, and extrapolate
`months_ahead` entries.  `none` models the `NaT.strftime` failure the
source hits when no date survives coercion, which its `except` arm turns
into the all-zero fallback. -/
def tryMonthly (data : List ProcRow) (months_ahead : Nat) : Option (List Prediction) :=
  match usedMonths data with
  | [] => none
  | m0 :: ms =>
    let mn := ms.foldl Nat.min m0
    let mx := ms.foldl Nat.max m0
    let avg_income : Rat := bucketAvg data mn mx (·.Income)
    let avg_expenses : Rat := bucketAvg data mn mx (·.Expenses)
    some ((List.range months_ahead).map (fun k =>
      let i : Nat := k + 1
      let predicted_income := avg_income * (1 + (i : Rat) * (0.01 : Rat))
      let predicted_expenses := avg_expenses * (1 + (i : Rat) * (0.005 : Rat))
      { month := mx + i
        predicted_income := predicted_income
        predicted_expenses := predicted_expenses
        predicted_net := predicted_income - predicted_expenses
        growth_rate := (0.01 : Rat) }))

/-- The `except` arm of `generate_financial_predictions`: `months_ahead`
all-zero entries whose month labels start from the wall clock. -/
def fallbackMonthly (now : Date) (months_ahead : Nat) : List Prediction :=
  (List.range months_ahead).map (fun k =>
    { month := now.month + (k + 1)
      predicted_income := 0
      predicted_expenses := 0
      predicted_net := 0
      growth_rate := 0 })

/-- Model of `generate_financial_predictions(data, months_ahead)`.  The second
component of the result is the caller's frame as it stands after the
call: the source rewrites the input's `Date` column in place (no copy)
whenever the guard `'Date' in data.columns and not
data['Date'].isna().all()` passes.  `now` is the wall clock the fallback
arm reads via `datetime.now()`. -/
def generate_financial_predictions (data? : Option (List ProcRow)) (months_ahead : Nat)
    (now : Date) : PredictionResult × Option (List ProcRow) :=
  match data? with
  | none => (⟨"لا توجد بيانات كافية للتنبؤ.", []⟩, none)
  | some data =>
    if data.isEmpty then (⟨"لا توجد بيانات كافية للتنبؤ.", []⟩, some data)
    else if data.any (fun r => notNA r.Date) then
      let updated := coerceDates data
      let monthly_data :=
        match tryMonthly updated months_ahead with
        | some l => l
        | none => fallbackMonthly now months_ahead
      (⟨predSummary months_ahead, monthly_data⟩, some updated)
    else
      (⟨predSummary months_ahead, []⟩, some data)

/-! ## Structure detector (claim C3) -/

theorem mem_append_single {m : Mapping} {q p : String × String} (hp : p ∈ m ++ [q]) :
    p ∈ m ∨ p = q := by
  rcases List.mem_append.1 hp with h | h
  · exact Or.inl h
  · exact Or.inr (List.mem_singleton.1 h)

theorem detectStep_mem {col : String} {m : Mapping} {p : String × String}
    (hp : p ∈ detectStep col m) : p ∈ m ∨ (p.1 ∈ canonicalFields ∧ p.2 = col) := by
  unfold detectStep at hp
  dsimp only at hp
  split at hp
  · rcases mem_append_single hp with h | h
    · exact Or.inl h
    · subst h; exact Or.inr ⟨by simp [canonicalFields], rfl⟩
  split at hp
  · rcases mem_append_single hp with h | h
    · exact Or.inl h
    · subst h; exact Or.inr ⟨by simp [canonicalFields], rfl⟩
  split at hp
  · rcases mem_append_single hp with h | h
    · exact Or.inl h
    · subst h; exact Or.inr ⟨by simp [canonicalFields], rfl⟩
  split at hp
  · rcases mem_append_single hp with h | h
    · exact Or.inl h
    · subst h; exact Or.inr ⟨by simp [canonicalFields], rfl⟩
  split at hp
  · rcases mem_append_single hp with h | h
    · exact Or.inl h
    · subst h; exact Or.inr ⟨by simp [canonicalFields], rfl⟩
  · exact Or.inl hp

theorem detectFrom_mem : ∀ (hs : List String) (m : Mapping) (p : String × String),
    p ∈ detectFrom hs m → p ∈ m ∨ (p.1 ∈ canonicalFields ∧ p.2 ∈ hs)
  | [], _, _, hp => Or.inl hp
  | col :: rest, m, p, hp => by
    rcases detectFrom_mem rest (detectStep col m) p hp with h | ⟨h1, h2⟩
    · rcases detectStep_mem h with h' | ⟨h1, h2⟩
      · exact Or.inl h'
      · exact Or.inr ⟨h1, by rw [h2]; exact List.mem_cons_self _ _⟩
    · exact Or.inr ⟨h1, List.mem_cons_of_mem _ h2⟩

theorem detectStep_vals_sub {col : String} {m : Mapping} {v : String}
    (hv : v ∈ (detectStep col m).map Prod.snd) : v ∈ m.map Prod.snd ∨ v = col := by
  rcases List.mem_map.1 hv with ⟨p, hp, rfl⟩
  rcases detectStep_mem hp with h | ⟨_, h2⟩
  · exact Or.inl (List.mem_map_of_mem _ h)
  · exact Or.inr h2

theorem detectStep_vals_nodup {col : String} {m : Mapping}
    (hm : (m.map Prod.snd).Nodup) (hcol : col ∉ m.map Prod.snd) :
    ((detectStep col m).map Prod.snd).Nodup := by
  unfold detectStep
  dsimp only
  split
  · simp [List.nodup_append, hm, hcol]
  split
  · simp [List.nodup_append, hm, hcol]
  split
  · simp [List.nodup_append, hm, hcol]
  split
  · simp [List.nodup_append, hm, hcol]
  split
  · simp [List.nodup_append, hm, hcol]
  · exact hm

theorem detectFrom_vals_nodup : ∀ (hs : List String) (m : Mapping), hs.Nodup →
    (m.map Prod.snd).Nodup → (∀ v ∈ m.map Prod.snd, v ∉ hs) →
    ((detectFrom hs m).map Prod.snd).Nodup
  | [], _, _, hm, _ => hm
  | col :: rest, m, hns, hm, hdisj => by
    have hcolrest : col ∉ rest := (List.nodup_cons.1 hns).1
    have hrest : rest.Nodup := (List.nodup_cons.1 hns).2
    have hcol : col ∉ m.map Prod.snd := fun hc => hdisj col hc (List.mem_cons_self _ _)
    refine detectFrom_vals_nodup rest (detectStep col m) hrest
      (detectStep_vals_nodup hm hcol) ?_
    intro v hv hvrest
    rcases detectStep_vals_sub hv with h | rfl
    · exact hdisj v h (List.mem_cons_of_mem _ hvrest)
    · exact hcolrest hvrest

/-- C3 (amended): for every header list, `detect_excel_structure` returns
a mapping whose keys all lie among the five canonical fields and whose
values all come from the header list; and whenever the headers are
pairwise distinct it never assigns the same header to two canonical
fields.  (The distinctness proviso is forced by the counterexample below:
a frame with two identically named columns matching two keyword lists
receives the same header for two fields.) -/
theorem C3_detect_mapping_shape (headers : List String) :
    (∀ p ∈ detect_excel_structure headers, p.1 ∈ canonicalFields ∧ p.2 ∈ headers) ∧
    (headers.Nodup → ((detect_excel_structure headers).map Prod.snd).Nodup) := by
  constructor
  · intro p hp
    rcases detectFrom_mem headers [] p hp with h | ⟨h1, h2⟩
    · cases h
    · exact ⟨h1, h2⟩
  · intro hnd
    exact detectFrom_vals_nodup headers [] hnd (by simp) (by simp)

theorem C3_detect_mapping_shape_witness :
    (("Date", "Date").1 ∈ canonicalFields ∧ ("Date", "Date").2 ∈ ["Date", "Amount"]) ∧
    ((detect_excel_structure ["Date", "Amount"]).map Prod.snd).Nodup :=
  ⟨(C3_detect_mapping_shape ["Date", "Amount"]).1 ("Date", "Date") (by decide),
   (C3_detect_mapping_shape ["Date", "Amount"]).2 (by decide)⟩

/-- C3 counterexample: on the header list `["income date", "income date"]`
(a frame with duplicated column names) the detector assigns the one header
string `"income date"` to both the Date field and the Income field, so
the returned mapping's values are not pairwise distinct. -/
theorem C3_duplicate_header_counterexample :
    detect_excel_structure ["income date", "income date"] =
      [("Date", "income date"), ("Income", "income date")] ∧
    ¬ ((detect_excel_structure ["income date", "income date"]).map Prod.snd).Nodup := by
  exact ⟨by decide, by decide⟩

/-! ## Classifier (claim C2) -/

theorem scanCategories_mem :
    ∀ (t : List (String × List String)) (d : String) (a b : Bool) (c : String),
      scanCategories t d a b = some c → c ∈ t.map Prod.fst
  | [], _, _, _, _, h => by simp [scanCategories] at h
  | (cat, kws) :: rest, d, a, b, c, h => by
    unfold scanCategories at h
    split at h
    · split at h
      · rw [Option.some_inj.1 h]; exact List.mem_cons_self _ _
      · split at h
        · rw [Option.some_inj.1 h]; exact List.mem_cons_self _ _
        · exact List.mem_cons_of_mem _ (scanCategories_mem rest d a b c h)
    · exact List.mem_cons_of_mem _ (scanCategories_mem rest d a b c h)

theorem category_keywords_keys_ne_empty :
    ∀ c ∈ category_keywords.map Prod.fst, c ≠ "" := by
  decide

/-- C2: the classifier is a total deterministic function of the
description cell and the two coerced amounts (it is a plain function of
those inputs); it always returns a non-empty label, and whenever no
category keyword match passes the income/expense side filter — including
when the description is absent (`NaN`/`None`) or the empty string — it
returns the other-income label if `income > 0`, else the other-expenses
label if `expenses > 0`, else the uncategorized label. -/
theorem C2_classifier_total_nonempty_fallback (desc : CellValue) (income expenses : Rat) :
    classify_transactions desc income expenses ≠ "" ∧
    ((descHasText desc = false ∨
        scanCategories category_keywords (toLowerStr (strOfCell desc))
          (decide (income > 0)) (decide (expenses > 0)) = none) →
      classify_transactions desc income expenses =
        (if income > 0 then otherIncomeLabel
         else if expenses > 0 then otherExpensesLabel
         else uncategorizedLabel)) := by
  unfold classify_transactions
  dsimp only
  rcases hcase : (if descHasText desc then
      scanCategories category_keywords (toLowerStr (strOfCell desc))
        (decide (income > 0)) (decide (expenses > 0)) else none) with _ | c
  · dsimp only
    constructor
    · split
      · decide
      · split
        · decide
        · decide
    · intro _
      simp only [decide_eq_true_eq]
  · dsimp only
    have hc : c ∈ category_keywords.map Prod.fst := by
      rcases hd : descHasText desc with _ | _
      · rw [hd] at hcase
        simp at hcase
      · rw [hd] at hcase
        simp only [if_pos] at hcase
        exact scanCategories_mem _ _ _ _ _ hcase
    constructor
    · exact category_keywords_keys_ne_empty c hc
    · rintro (h | h)
      · rw [h] at hcase
        simp at hcase
      · rcases hd : descHasText desc with _ | _
        · rw [hd] at hcase
          simp at hcase
        · rw [hd] at hcase
          simp only [if_pos] at hcase
          rw [h] at hcase
          exact Option.noConfusion hcase

theorem C2_classifier_witness :
    classify_transactions CellValue.na 5 0 ≠ "" ∧
    classify_transactions CellValue.na 5 0 = otherIncomeLabel := by
  refine ⟨(C2_classifier_total_nonempty_fallback CellValue.na 5 0).1, ?_⟩
  have h := (C2_classifier_total_nonempty_fallback CellValue.na 5 0).2 (Or.inl rfl)
  rw [h, if_pos (by norm_num)]

/-! ## Aggregator on empty input (claim C6) -/

/-- C6: called on a `None` or empty record set, `generate_ai_insights`
returns the canned insufficient-data result: the literal summary string,
an empty `category_analysis` mapping, exactly one insight string and
exactly one recommendation string. -/
theorem C6_empty_input_canned_result :
    generate_ai_insights none = emptyInsights ∧
    generate_ai_insights (some []) = emptyInsights ∧
    emptyInsights.summary = "لا توجد بيانات كافية للتحليل." ∧
    emptyInsights.category_analysis = [] ∧
    emptyInsights.insights.length = 1 ∧
    emptyInsights.recommendations.length = 1 :=
  ⟨rfl, rfl, rfl, rfl, rfl, rfl⟩

/-! ## Category cleanup (claim C10) -/

/-- C10: the normalizer's category cleanup replaces only the literal
strings `""` and `"nan"` with the uncategorized label and passes every
other string through verbatim; `str()` of a Python `None` cell is the
literal `"None"`, so a mapped Category cell holding `None` yields the
category string `"None"`, not the uncategorized label. -/
theorem C10_cleanup_only_empty_and_nan (s : String) (mapping : Mapping) (h : String)
    (now : Date) (n i : Nat) (r : Row) :
    (s ≠ "" → s ≠ "nan" → cleanCategory s = s) ∧
    strOfCell CellValue.pyNone = "None" ∧
    (mlookup mapping "Category" = some h →
      (processRow mapping now n i r).Category = cleanCategory (strOfCell (getCell r h))) := by
  refine ⟨?_, rfl, ?_⟩
  · intro h1 h2
    unfold cleanCategory
    rw [if_neg h1, if_neg h2]
  · intro hm
    unfold processRow
    dsimp only
    rw [hm]

/-! ## Normalizer record invariants (claim C1) -/

theorem cleanCategory_ne_empty (s : String) : cleanCategory s ≠ "" := by
  unfold cleanCategory
  by_cases h1 : s = ""
  · rw [if_pos h1]; decide
  · rw [if_neg h1]
    by_cases h2 : s = "nan"
    · rw [if_pos h2]; decide
    · rw [if_neg h2]; exact h1

theorem analyzeRows_mem {mapping : Mapping} {now : Date} {n : Nat} :
    ∀ {i : Nat} {df : List Row} {p : ProcRow}, p ∈ analyzeRows mapping now n i df →
      ∃ j r, r ∈ df ∧ p = processRow mapping now n j r := by
  intro i df
  induction df generalizing i with
  | nil =>
    intro p hp
    simp only [analyzeRows] at hp
    cases hp
  | cons r rs ih =>
    intro p hp
    simp only [analyzeRows] at hp
    rcases List.mem_cons.1 hp with h | h
    · exact ⟨i, r, List.mem_cons_self _ _, h⟩
    · rcases ih h with ⟨j, r', hr', hp'⟩
      exact ⟨j, r', List.mem_cons_of_mem _ hr', hp'⟩

theorem processRow_invariants (mapping : Mapping) (now : Date) (n i : Nat) (r : Row) :
    0 ≤ (processRow mapping now n i r).Expenses ∧
    (processRow mapping now n i r).Category ≠ "" ∧
    (processRow mapping now n i r).Net =
      (processRow mapping now n i r).Income - (processRow mapping now n i r).Expenses := by
  unfold processRow
  dsimp only
  refine ⟨?_, ?_, rfl⟩
  · rcases mlookup mapping "Expenses" with _ | h
    · exact le_refl 0
    · exact abs_nonneg _
  · rcases mlookup mapping "Category" with _ | h
    · exact cleanCategory_ne_empty _
    · exact cleanCategory_ne_empty _

/-- C1 (amended): every record output by `analyze_excel_data` has
`Expenses >= 0`, a non-empty `Category` string and `Net` equal to
`Income - Expenses` exactly.  The claim's `income >= 0` conjunct is false
on the code: the income column is numerically coerced with NaN replaced
by 0 but, unlike expenses, never passed through `abs`, so a negative
source value survives into the canonical record (see the
counterexample). -/
theorem C1_record_invariants (df : List Row) (mapping : Mapping) (now : Date)
    (p : ProcRow) (hp : p ∈ analyze_excel_data df mapping now) :
    0 ≤ p.Expenses ∧ p.Category ≠ "" ∧ p.Net = p.Income - p.Expenses := by
  simp only [analyze_excel_data] at hp
  have hp' := List.mem_of_mem_filter hp
  rcases analyzeRows_mem hp' with ⟨j, r, _, rfl⟩
  exact processRow_invariants mapping now df.length j r

theorem C1_record_invariants_witness :
    0 ≤ (processRow [("Date", "d")] ⟨600, 1⟩ 1 0 [("d", CellValue.date ⟨600, 5⟩)]).Expenses ∧
    (processRow [("Date", "d")] ⟨600, 1⟩ 1 0 [("d", CellValue.date ⟨600, 5⟩)]).Category ≠ "" ∧
    (processRow [("Date", "d")] ⟨600, 1⟩ 1 0 [("d", CellValue.date ⟨600, 5⟩)]).Net =
      (processRow [("Date", "d")] ⟨600, 1⟩ 1 0 [("d", CellValue.date ⟨600, 5⟩)]).Income -
        (processRow [("Date", "d")] ⟨600, 1⟩ 1 0 [("d", CellValue.date ⟨600, 5⟩)]).Expenses := by
  refine C1_record_invariants [[("d", CellValue.date ⟨600, 5⟩)]] [("Date", "d")] ⟨600, 1⟩ _ ?_
  exact List.mem_filter.2 ⟨List.mem_cons_self _ _, rfl⟩

/-- C1 counterexample: a raw income cell holding `-5` is numerically
coerced and survives unchanged, so the claim's `income >= 0` invariant
fails on the normalizer's output. -/
theorem C1_negative_income_counterexample :
    (analyze_excel_data [[("i", CellValue.num (-5)), ("x", CellValue.text "stuff")]]
        [("Income", "i"), ("Description", "x")] ⟨600, 1⟩).all
      (fun p => decide (0 ≤ p.Income)) = false := rfl

/-! ## Unparsable dates dropped (claim C4) -/

theorem processRow_date_mapped {mapping : Mapping} {h : String}
    (hm : mlookup mapping "Date" = some h) (now : Date) (n i : Nat) (r : Row) :
    isDateCell (processRow mapping now n i r).Date = (pdToDatetime (getCell r h)).isSome := by
  unfold processRow
  dsimp only
  rw [hm]
  dsimp only
  rcases pdToDatetime (getCell r h) with _ | d
  · rfl
  · rfl

theorem analyze_length_eq {mapping : Mapping} {h : String}
    (hm : mlookup mapping "Date" = some h) (now : Date) (n : Nat) :
    ∀ (i : Nat) (df : List Row),
      ((analyzeRows mapping now n i df).filter (fun p => isDateCell p.Date)).length =
        (df.filter (fun r => (pdToDatetime (getCell r h)).isSome)).length := by
  intro i df
  induction df generalizing i with
  | nil => rfl
  | cons r rs ih =>
    simp only [analyzeRows, List.filter_cons, processRow_date_mapped hm]
    by_cases hb : (pdToDatetime (getCell r h)).isSome = true
    · simp [hb, ih]
    · rw [Bool.not_eq_true] at hb
      simp [hb, ih]

/-- C4: when the column mapping has a Date entry, every input row whose
date cell fails datetime coercion is dropped entirely from the
normalizer's output, every surviving record holds a valid (non-NaT)
date, and when exactly one row fails to parse the output row count is
exactly one less than the input row count. -/
theorem C4_unparsable_dates_dropped (df : List Row) (mapping : Mapping) (now : Date)
    (h : String) (hm : mlookup mapping "Date" = some h) :
    (∀ p ∈ analyze_excel_data df mapping now, isDateCell p.Date = true) ∧
    (analyze_excel_data df mapping now).length =
      (df.filter (fun r => (pdToDatetime (getCell r h)).isSome)).length ∧
    ((df.filter (fun r => !(pdToDatetime (getCell r h)).isSome)).length = 1 →
      (analyze_excel_data df mapping now).length = df.length - 1) := by
  refine ⟨?_, ?_, ?_⟩
  · intro p hp
    simp only [analyze_excel_data] at hp
    exact (List.mem_filter.1 hp).2
  · simp only [analyze_excel_data]
    exact analyze_length_eq hm now df.length 0 df
  · intro h1
    simp only [analyze_excel_data]
    rw [analyze_length_eq hm now df.length 0 df]
    have h3 : df.length =
        (df.filter (fun r => (pdToDatetime (getCell r h)).isSome)).length +
          (df.filter (fun r => !(pdToDatetime (getCell r h)).isSome)).length :=
      List.length_eq_length_filter_add _
    omega

theorem C4_unparsable_dates_dropped_witness :
    (analyze_excel_data
        [[("d", CellValue.text "2024-01-15")], [("d", CellValue.text "not-a-date")]]
        [("Date", "d")] ⟨600, 1⟩).length =
      ([[("d", CellValue.text "2024-01-15")], [("d", CellValue.text "not-a-date")]].filter
        (fun r => (pdToDatetime (getCell r "d")).isSome)).length ∧
    (analyze_excel_data
        [[("d", CellValue.text "2024-01-15")], [("d", CellValue.text "not-a-date")]]
        [("Date", "d")] ⟨600, 1⟩).length =
      [[("d", CellValue.text "2024-01-15")], [("d", CellValue.text "not-a-date")]].length - 1 :=
  ⟨(C4_unparsable_dates_dropped
      [[("d", CellValue.text "2024-01-15")], [("d", CellValue.text "not-a-date")]]
      [("Date", "d")] ⟨600, 1⟩ "d" rfl).2.1,
   (C4_unparsable_dates_dropped
      [[("d", CellValue.text "2024-01-15")], [("d", CellValue.text "not-a-date")]]
      [("Date", "d")] ⟨600, 1⟩ "d" rfl).2.2 (by decide)⟩

theorem C10_cleanup_witness :
    cleanCategory "None" = "None" ∧
    (processRow [("Category", "c")] ⟨600, 1⟩ 1 0 [("c", CellValue.pyNone)]).Category =
      cleanCategory (strOfCell (getCell [("c", CellValue.pyNone)] "c")) :=
  ⟨(C10_cleanup_only_empty_and_nan "None" [] "" ⟨600, 1⟩ 0 0 []).1 (by decide) (by decide),
   (C10_cleanup_only_empty_and_nan "None" [("Category", "c")] "c" ⟨600, 1⟩ 1 0
      [("c", CellValue.pyNone)]).2.2 rfl⟩

/-! ## Top-category insights (claim C7) -/

theorem gai_insights_length (data : List ProcRow) (hne : data ≠ []) :
    (generate_ai_insights (some data)).insights.length = 3 := by
  rcases data with _ | ⟨r, rs⟩
  · exact absurd rfl hne
  · unfold generate_ai_insights
    dsimp only
    rw [if_neg (by simp)]
    dsimp only
    rw [List.length_append]
    split
    · rfl
    · rfl

/-- C7 (amended): for every non-empty record set the aggregator appends
BOTH top-category insights unconditionally — the insights list always has
exactly three entries and contains the top-expense sentence.  The claim's
skip condition never fires: the per-category expense series is indexed by
every category appearing in the data (with zero totals for categories
bearing no expenses), so it is non-empty whenever the record set is, even
when no expense-bearing category exists; symmetrically for income. -/
theorem C7_top_insights_never_skipped (data : List ProcRow) (hne : data ≠ []) :
    (generate_ai_insights (some data)).insights.length = 3 ∧
    ("أكبر فئة مصروفات هي '" ++ (topOf (expenses_by_category data)).1 ++ "' بقيمة " ++
        fmt2 (topOf (expenses_by_category data)).2 ++ ".") ∈
      (generate_ai_insights (some data)).insights := by
  refine ⟨gai_insights_length data hne, ?_⟩
  rcases data with _ | ⟨r, rs⟩
  · exact absurd rfl hne
  · unfold generate_ai_insights
    dsimp only
    rw [if_neg (by simp)]
    dsimp only
    exact List.mem_append.2 (Or.inr (List.mem_cons_self _ _))

theorem C7_top_insights_never_skipped_witness :
    (generate_ai_insights
        (some [⟨CellValue.date ⟨648, 10⟩, CellValue.text "x", 100, 20, "c", 80⟩])).insights.length
      = 3 ∧
    ("أكبر فئة مصروفات هي '" ++
        (topOf (expenses_by_category
          [⟨CellValue.date ⟨648, 10⟩, CellValue.text "x", 100, 20, "c", 80⟩])).1 ++ "' بقيمة " ++
        fmt2 (topOf (expenses_by_category
          [⟨CellValue.date ⟨648, 10⟩, CellValue.text "x", 100, 20, "c", 80⟩])).2 ++ ".") ∈
      (generate_ai_insights
        (some [⟨CellValue.date ⟨648, 10⟩, CellValue.text "x", 100, 20, "c", 80⟩])).insights :=
  C7_top_insights_never_skipped
    [⟨CellValue.date ⟨648, 10⟩, CellValue.text "x", 100, 20, "c", 80⟩] (by decide)

/-- C7 counterexample: a single-record set with zero expenses everywhere
has no expense-bearing category at all, yet the aggregator still emits
three insights — the top-expense insight among them — instead of skipping
it: the source's emptiness guard checks the per-category series, which
always contains every category with a zero total. -/
theorem C7_insight_not_skipped_counterexample :
    ([⟨CellValue.date ⟨648, 10⟩, CellValue.text "x", 100, 0, "رواتب", 100⟩] : List ProcRow).all
        (fun r => decide (r.Expenses ≤ 0)) = true ∧
    (generate_ai_insights
        (some [⟨CellValue.date ⟨648, 10⟩, CellValue.text "x", 100, 0, "رواتب", 100⟩])).insights.length
      = 3 :=
  ⟨rfl, gai_insights_length _ (by decide)⟩

/-! ## Determinism and the wall clock (claim C8) -/

theorem processRow_clock_free {mapping : Mapping} {h : String}
    (hm : mlookup mapping "Date" = some h) (now1 now2 : Date) (n i : Nat) (r : Row) :
    processRow mapping now1 n i r = processRow mapping now2 n i r := by
  unfold processRow
  dsimp only
  rw [hm]

theorem analyzeRows_clock_free {mapping : Mapping} {h : String}
    (hm : mlookup mapping "Date" = some h) (now1 now2 : Date) (n : Nat) :
    ∀ (i : Nat) (df : List Row),
      analyzeRows mapping now1 n i df = analyzeRows mapping now2 n i df := by
  intro i df
  induction df generalizing i with
  | nil => rfl
  | cons r rs ih => simp only [analyzeRows, processRow_clock_free hm now1 now2, ih]

/-- C8 (amended): every stage is a pure function of its inputs together
with the wall clock it reads through `datetime.now()`; with the clock
reading fixed, repeated invocations are identical by construction.  The
output is moreover clock-independent whenever the stage does not touch
the clock: the normalizer whenever the mapping has a Date entry, and the
predictor whenever its try-arm succeeds (the all-zero fallback stamps its
months from the clock).  The claim's unconditional reading is false: with
no Date entry the normalizer synthesizes dates ending at the current day,
so two invocations at different clock readings disagree (see the
counterexample). -/
theorem C8_stages_clock_independent_when_dated (df : List Row) (mapping : Mapping)
    (h : String) (now1 now2 : Date) (months_ahead : Nat) (data : List ProcRow)
    (hm : mlookup mapping "Date" = some h)
    (hp : (tryMonthly (coerceDates data) months_ahead).isSome = true) :
    analyze_excel_data df mapping now1 = analyze_excel_data df mapping now2 ∧
    generate_financial_predictions (some data) months_ahead now1 =
      generate_financial_predictions (some data) months_ahead now2 := by
  constructor
  · simp only [analyze_excel_data]
    rw [analyzeRows_clock_free hm now1 now2 df.length 0 df]
  · rcases ht : tryMonthly (coerceDates data) months_ahead with _ | l
    · rw [ht] at hp
      cases hp
    · unfold generate_financial_predictions
      dsimp only
      rw [ht]

theorem C8_stages_clock_independent_witness :
    analyze_excel_data [[("d", CellValue.date ⟨600, 5⟩)]] [("Date", "d")] ⟨600, 1⟩ =
      analyze_excel_data [[("d", CellValue.date ⟨600, 5⟩)]] [("Date", "d")] ⟨600, 2⟩ ∧
    generate_financial_predictions
        (some [⟨CellValue.date ⟨600, 5⟩, CellValue.text "x", 1, 0, "c", 1⟩]) 2 ⟨600, 1⟩ =
      generate_financial_predictions
        (some [⟨CellValue.date ⟨600, 5⟩, CellValue.text "x", 1, 0, "c", 1⟩]) 2 ⟨600, 2⟩ :=
  C8_stages_clock_independent_when_dated [[("d", CellValue.date ⟨600, 5⟩)]] [("Date", "d")]
    "d" ⟨600, 1⟩ ⟨600, 2⟩ 2 [⟨CellValue.date ⟨600, 5⟩, CellValue.text "x", 1, 0, "c", 1⟩]
    rfl rfl

/-- C8 counterexample: with no Date entry in the mapping the normalizer
reads the wall clock to synthesize dates, so two invocations on the same
single-row input at different clock readings return different outputs —
the stage is not a function of its data inputs alone. -/
theorem C8_clock_dependence_counterexample :
    analyze_excel_data [[]] [] ⟨600, 1⟩ ≠ analyze_excel_data [[]] [] ⟨600, 2⟩ := by
  intro hcontra
  have h2 := congrArg (List.map (fun p : ProcRow => p.Date)) hcontra
  rw [show (analyze_excel_data [[]] [] ⟨600, 1⟩).map (fun p : ProcRow => p.Date) =
        [CellValue.date ⟨600, 1⟩] from rfl,
      show (analyze_excel_data [[]] [] ⟨600, 2⟩).map (fun p : ProcRow => p.Date) =
        [CellValue.date ⟨600, 2⟩] from rfl] at h2
  exact absurd h2 (by decide)

/-! ## Input mutation by the predictor (claim C9) -/

theorem procRow_set_same_date (r : ProcRow) (h : reDate r.Date = r.Date) :
    { r with Date := reDate r.Date } = r := by
  rw [h]

theorem coerceDates_fixed : ∀ (data : List ProcRow),
    (∀ r ∈ data, reDate r.Date = r.Date) → coerceDates data = data
  | [], _ => rfl
  | r :: rs, h => by
    have htail := coerceDates_fixed rs (fun x hx => h x (List.mem_cons_of_mem _ hx))
    simp only [coerceDates, List.map_cons] at htail ⊢
    rw [procRow_set_same_date r (h r (List.mem_cons_self _ _)), htail]

/-- C9 (amended): the normalizer works on a copy of its input frame and
the aggregator only reads its input, but the predictor does mutate: on a
non-empty frame with at least one non-null date cell it rewrites the
caller's `Date` column in place with the datetime-coerced values.  The
caller's frame is value-unchanged exactly when every date cell is already
a fixpoint of that coercion (a datetime or NaT); a frame whose date cells
hold e.g. text comes back altered (see the counterexample). -/
theorem C9_predictor_rewrites_input_dates (data : List ProcRow) (months_ahead : Nat)
    (now : Date) (hne : data ≠ []) (hna : data.any (fun r => notNA r.Date) = true) :
    (generate_financial_predictions (some data) months_ahead now).2 =
      some (coerceDates data) ∧
    ((∀ r ∈ data, reDate r.Date = r.Date) →
      (generate_financial_predictions (some data) months_ahead now).2 = some data) := by
  have h1 : (generate_financial_predictions (some data) months_ahead now).2 =
      some (coerceDates data) := by
    rcases data with _ | ⟨r, rs⟩
    · exact absurd rfl hne
    · unfold generate_financial_predictions
      dsimp only
      rw [if_neg (by simp), if_pos hna]
  exact ⟨h1, fun hfix => by rw [h1, coerceDates_fixed data hfix]⟩

theorem C9_predictor_rewrites_input_dates_witness :
    (generate_financial_predictions
        (some [⟨CellValue.text "2024-01-15", CellValue.text "x", 100, 40, "c", 60⟩]) 3
        ⟨600, 1⟩).2 =
      some (coerceDates [⟨CellValue.text "2024-01-15", CellValue.text "x", 100, 40, "c", 60⟩]) ∧
    ((∀ r ∈ ([⟨CellValue.text "2024-01-15", CellValue.text "x", 100, 40, "c", 60⟩] : List ProcRow),
        reDate r.Date = r.Date) →
      (generate_financial_predictions
          (some [⟨CellValue.text "2024-01-15", CellValue.text "x", 100, 40, "c", 60⟩]) 3
          ⟨600, 1⟩).2 =
        some [⟨CellValue.text "2024-01-15", CellValue.text "x", 100, 40, "c", 60⟩]) :=
  C9_predictor_rewrites_input_dates
    [⟨CellValue.text "2024-01-15", CellValue.text "x", 100, 40, "c", 60⟩] 3 ⟨600, 1⟩
    (by decide) rfl

/-- C9 counterexample: calling the predictor on a frame whose `Date`
column holds the text `"2024-01-15"` leaves the caller's frame changed —
the date cell comes back as the parsed datetime, not the original
string.  This refutes the claim that no pipeline stage mutates its
input. -/
theorem C9_input_mutation_counterexample :
    (generate_financial_predictions
        (some [⟨CellValue.text "2024-01-15", CellValue.text "x", 100, 40, "c", 60⟩]) 3
        ⟨600, 1⟩).2 ≠
      some [⟨CellValue.text "2024-01-15", CellValue.text "x", 100, 40, "c", 60⟩] := by
  intro hcontra
  have h2 := congrArg (Option.map (List.map (fun p : ProcRow => p.Date))) hcontra
  rw [show Option.map (List.map (fun p : ProcRow => p.Date))
        (generate_financial_predictions
          (some [⟨CellValue.text "2024-01-15", CellValue.text "x", 100, 40, "c", 60⟩]) 3
          ⟨600, 1⟩).2 =
      some [CellValue.date ⟨24288, 15⟩] from rfl] at h2
  exact absurd h2 (by decide)

/-! ## Prediction formulas (claim C5) -/

theorem usedMonths_nil_of_allNA : ∀ (data : List ProcRow),
    (∀ r ∈ data, notNA r.Date = false) → usedMonths (coerceDates data) = []
  | [], _ => rfl
  | r :: rs, h => by
    have hr := h r (List.mem_cons_self _ _)
    have htail := usedMonths_nil_of_allNA rs (fun x hx => h x (List.mem_cons_of_mem _ hx))
    rcases hd : r.Date with s | q | d | _ | _ <;> rw [hd] at hr
    · cases hr
    · cases hr
    · cases hr
    · simp only [coerceDates, usedMonths, List.map_cons, List.filterMap_cons, hd, reDate,
        pdToDatetime] at htail ⊢
      exact htail
    · simp only [coerceDates, usedMonths, List.map_cons, List.filterMap_cons, hd, reDate,
        pdToDatetime] at htail ⊢
      exact htail

theorem any_notNA_of_usedMonths (data : List ProcRow) (m0 : Nat) (ms : List Nat)
    (h : usedMonths (coerceDates data) = m0 :: ms) :
    data.any (fun r => notNA r.Date) = true := by
  by_cases hany : data.any (fun r => notNA r.Date) = true
  · exact hany
  · exfalso
    rw [Bool.not_eq_true] at hany
    have hall : ∀ r ∈ data, notNA r.Date = false := by
      intro r hr
      by_contra hc
      rw [Bool.not_eq_false] at hc
      have h2 : data.any (fun r => notNA r.Date) = true := List.any_eq_true.2 ⟨r, hr, hc⟩
      rw [hany] at h2
      cases h2
    rw [usedMonths_nil_of_allNA data hall] at h
    cases h

/-- C5: on a non-empty record set whose dates yield at least one usable
month, the predictor returns exactly `months_ahead` entries; entry `k`
(0-based, so 1-based index `i = k + 1`) carries the month `i` positions
after the latest used month (hence strictly increasing month labels
starting one month after the latest historical month),
`predicted_income = avg_income * (1 + i * 0.01)` and
`predicted_expenses = avg_expenses * (1 + i * 0.005)` with the averages
the arithmetic means of the monthly bucket totals between the earliest
and the latest used month, `predicted_net` their difference, and
`growth_rate` the constant `0.01` on every entry. -/
theorem C5_prediction_formulas (data : List ProcRow) (months_ahead : Nat) (now : Date)
    (m0 : Nat) (ms : List Nat) (hne : data ≠ [])
    (hum : usedMonths (coerceDates data) = m0 :: ms) :
    ((generate_financial_predictions (some data) months_ahead now).1.monthly_predictions).length
        = months_ahead ∧
    (∀ k, k < months_ahead →
      ((generate_financial_predictions (some data) months_ahead
            now).1.monthly_predictions).get? k
        = some
          { month := ms.foldl Nat.max m0 + (k + 1)
            predicted_income :=
              bucketAvg (coerceDates data) (ms.foldl Nat.min m0) (ms.foldl Nat.max m0)
                  (·.Income) * (1 + ((k + 1 : Nat) : Rat) * (0.01 : Rat))
            predicted_expenses :=
              bucketAvg (coerceDates data) (ms.foldl Nat.min m0) (ms.foldl Nat.max m0)
                  (·.Expenses) * (1 + ((k + 1 : Nat) : Rat) * (0.005 : Rat))
            predicted_net :=
              bucketAvg (coerceDates data) (ms.foldl Nat.min m0) (ms.foldl Nat.max m0)
                  (·.Income) * (1 + ((k + 1 : Nat) : Rat) * (0.01 : Rat)) -
                bucketAvg (coerceDates data) (ms.foldl Nat.min m0) (ms.foldl Nat.max m0)
                  (·.Expenses) * (1 + ((k + 1 : Nat) : Rat) * (0.005 : Rat))
            growth_rate := (0.01 : Rat) }) ∧
    (∀ j k pj pk, j < k → k < months_ahead →
      ((generate_financial_predictions (some data) months_ahead
            now).1.monthly_predictions).get? j = some pj →
      ((generate_financial_predictions (some data) months_ahead
            now).1.monthly_predictions).get? k = some pk →
      pj.month < pk.month) := by
  have hguard := any_notNA_of_usedMonths data m0 ms hum
  have hpred : (generate_financial_predictions (some data) months_ahead
        now).1.monthly_predictions
      = (List.range months_ahead).map (fun k =>
          { month := ms.foldl Nat.max m0 + (k + 1)
            predicted_income :=
              bucketAvg (coerceDates data) (ms.foldl Nat.min m0) (ms.foldl Nat.max m0)
                  (·.Income) * (1 + ((k + 1 : Nat) : Rat) * (0.01 : Rat))
            predicted_expenses :=
              bucketAvg (coerceDates data) (ms.foldl Nat.min m0) (ms.foldl Nat.max m0)
                  (·.Expenses) * (1 + ((k + 1 : Nat) : Rat) * (0.005 : Rat))
            predicted_net :=
              bucketAvg (coerceDates data) (ms.foldl Nat.min m0) (ms.foldl Nat.max m0)
                  (·.Income) * (1 + ((k + 1 : Nat) : Rat) * (0.01 : Rat)) -
                bucketAvg (coerceDates data) (ms.foldl Nat.min m0) (ms.foldl Nat.max m0)
                  (·.Expenses) * (1 + ((k + 1 : Nat) : Rat) * (0.005 : Rat))
            growth_rate := (0.01 : Rat) }) := by
    rcases data with _ | ⟨r, rs⟩
    · exact absurd rfl hne
    · unfold generate_financial_predictions
      dsimp only
      rw [if_neg (by simp), if_pos hguard]
      unfold tryMonthly
      rw [hum]
  refine ⟨?_, ?_, ?_⟩
  · rw [hpred]
    simp [List.length_map, List.length_range]
  · intro k hk
    rw [hpred, List.get?_map, List.get?_range hk]
    rfl
  · intro j k pj pk hjk hk hj' hk'
    rw [hpred, List.get?_map, List.get?_range (Nat.lt_trans hjk hk)] at hj'
    rw [hpred, List.get?_map, List.get?_range hk] at hk'
    have hpj := Option.some_inj.1 hj'
    have hpk := Option.some_inj.1 hk'
    rw [← hpj, ← hpk]
    dsimp only
    omega

theorem C5_prediction_formulas_witness :
    ((generate_financial_predictions
        (some [⟨CellValue.date ⟨24288, 15⟩, CellValue.text "x", 100, 40, "c", 60⟩]) 3
        ⟨600, 1⟩).1.monthly_predictions).length = 3 ∧
    ((generate_financial_predictions
        (some [⟨CellValue.date ⟨24288, 15⟩, CellValue.text "x", 100, 40, "c", 60⟩]) 3
        ⟨600, 1⟩).1.monthly_predictions).get? 0
      = some
        { month := [].foldl Nat.max 24288 + (0 + 1)
          predicted_income :=
            bucketAvg
                (coerceDates [⟨CellValue.date ⟨24288, 15⟩, CellValue.text "x", 100, 40, "c", 60⟩])
                ([].foldl Nat.min 24288) ([].foldl Nat.max 24288) (·.Income) *
              (1 + ((0 + 1 : Nat) : Rat) * (0.01 : Rat))
          predicted_expenses :=
            bucketAvg
                (coerceDates [⟨CellValue.date ⟨24288, 15⟩, CellValue.text "x", 100, 40, "c", 60⟩])
                ([].foldl Nat.min 24288) ([].foldl Nat.max 24288) (·.Expenses) *
              (1 + ((0 + 1 : Nat) : Rat) * (0.005 : Rat))
          predicted_net :=
            bucketAvg
                (coerceDates [⟨CellValue.date ⟨24288, 15⟩, CellValue.text "x", 100, 40, "c", 60⟩])
                ([].foldl Nat.min 24288) ([].foldl Nat.max 24288) (·.Income) *
              (1 + ((0 + 1 : Nat) : Rat) * (0.01 : Rat)) -
              bucketAvg
                  (coerceDates
                    [⟨CellValue.date ⟨24288, 15⟩, CellValue.text "x", 100, 40, "c", 60⟩])
                  ([].foldl Nat.min 24288) ([].foldl Nat.max 24288) (·.Expenses) *
                (1 + ((0 + 1 : Nat) : Rat) * (0.005 : Rat))
          growth_rate := (0.01 : Rat) } :=
  ⟨(C5_prediction_formulas
      [⟨CellValue.date ⟨24288, 15⟩, CellValue.text "x", 100, 40, "c", 60⟩] 3 ⟨600, 1⟩
      24288 [] (by decide) rfl).1,
   (C5_prediction_formulas
      [⟨CellValue.date ⟨24288, 15⟩, CellValue.text "x", 100, 40, "c", 60⟩] 3 ⟨600, 1⟩
      24288 [] (by decide) rfl).2.1 0 (by decide)⟩

end ExcelAI
